import Mathlib

/-!
Shallow embedding of the Maya BVH file translator (src/bvhTranslator.cpp).

The C++ reader holds the whole file content in memory and pulls
whitespace-delimited tokens from an std::istringstream.  We model the token
stream as a List String; an extraction `tokens >> currentToken` at end of
stream fails and (since C++11) sets the target to the empty string, which the
function `next` reproduces.

Heap-allocated Node objects (created with new, linked through raw pointers,
never deleted) are modelled as an arena: the heap is a List Node and a
pointer is an index into it.  A new expression appends a default-constructed
Node and returns its index.

std::stof and std::stoi throw when no conversion can be performed; the
models stof? and stoi? return none in that case, and callers surface the
distinct outcome Err.thrown, separate from Err.fail (the function returning
false / MS::kFailure).  Float values are represented exactly by the decimal
type Dec (an integer mantissa with a power-of-ten scale, the value being
mant / 10 ^ exp); none of the verified claims depends on rounding, and no
float result is compared against host arithmetic.

Loops whose termination is not structural carry a fuel parameter.  The two
hierarchy loops consume at least one token per iteration, so the wrappers
hand them (tokens.length + 1) fuel, which is always sufficient; the
per-frame traversal loop of the motion section can genuinely diverge (its
child loop decrements the frame counter i instead of childIndex), so the
fuel of the reader only budgets that phase, and running out is reported by
the dedicated outcome ReaderResult.spin.
-/

/-- Outcome of a C++ call in the reader: the function signalled failure with
its return value (fail, leading to MS::kFailure), or an exception escaped
uncaught (thrown). -/
inductive Err where
  | fail
  | thrown
deriving Repr, DecidableEq

/-- Extraction of one token: istringstream `>>` on a string.  At end of
stream the extraction fails and leaves the empty string in the target. -/
def next (ts : List String) : String × List String :=
  match ts with
  | [] => ("", [])
  | t :: ts => (t, ts)

/-- Accumulator pass splitting characters into maximal runs of
non-whitespace; acc holds the characters of the current run in reverse. -/
def splitTokens : List Char → List Char → List String
  | [], acc => if acc.isEmpty then [] else [String.mk acc.reverse]
  | c :: cs, acc =>
    if c.isWhitespace then
      (if acc.isEmpty then [] else [String.mk acc.reverse]) ++ splitTokens cs []
    else splitTokens cs (c :: acc)

/-- Splitting of the file content into whitespace-delimited tokens, as the
chain of `>>` extractions does. -/
def tokenize (s : String) : List String :=
  splitTokens s.toList []

/-- Exact decimal representation of the float values the parser stores: the
value is mant / 10 ^ exp.  No claim compares float arithmetic against the
host, so the representation is kept unnormalized. -/
structure Dec where
  mant : Int
  exp : Nat
deriving Repr, DecidableEq, Inhabited

/-- Addition of decimals (only used for the unobservable running time of
the frame loop, `time += timeFrame`). -/
def Dec.add (a b : Dec) : Dec :=
  { mant := a.mant * (10 : Int) ^ b.exp + b.mant * (10 : Int) ^ a.exp
    exp := a.exp + b.exp }

/-- The zero decimal. -/
def Dec.zero : Dec := { mant := 0, exp := 0 }

/-- Value of a decimal digit, none for other characters. -/
def digit? (c : Char) : Option Nat :=
  if '0' ≤ c ∧ c ≤ '9' then some (c.toNat - '0'.toNat) else none

/-- Consumes the longest prefix of decimal digits, returning the accumulated
value, how many digits were consumed, and the rest. -/
def takeDigits : List Char → Nat → Nat → Nat × Nat × List Char
  | [], acc, k => (acc, k, [])
  | c :: cs, acc, k =>
    match digit? c with
    | some d => takeDigits cs (10 * acc + d) (k + 1)
    | none => (acc, k, c :: cs)

/-- Model of std::stoi on a whitespace-free token: optional sign followed by
decimal digits; the longest valid prefix is converted and trailing
characters are ignored; none (an std::invalid_argument throw in C++) when no
digit is consumed. -/
def stoi? (s : String) : Option Int :=
  let cs := s.toList
  let signAndRest : Int × List Char :=
    match cs with
    | '-' :: cs => (-1, cs)
    | '+' :: cs => (1, cs)
    | cs => (1, cs)
  let (v, k, _) := takeDigits signAndRest.2 0 0
  if k = 0 then none else some (signAndRest.1 * (v : Int))

/-- Model of std::stof on a whitespace-free token: optional sign, then
decimal digits with at most one decimal point (exponents, hex, inf and nan
are not exercised by any claim); the longest valid prefix is converted;
none (an std::invalid_argument throw in C++) when no digit is consumed. -/
def stof? (s : String) : Option Dec :=
  let cs := s.toList
  let signAndRest : Int × List Char :=
    match cs with
    | '-' :: cs => (-1, cs)
    | '+' :: cs => (1, cs)
    | cs => (1, cs)
  let (ip, ik, rest) := takeDigits signAndRest.2 0 0
  match rest with
  | '.' :: rest =>
    let (fp, fk, _) := takeDigits rest 0 0
    if ik = 0 ∧ fk = 0 then none
    else some { mant := signAndRest.1 * ((ip : Int) * (10 : Int) ^ fk + (fp : Int)), exp := fk }
  | _ => if ik = 0 then none else some { mant := signAndRest.1 * (ip : Int), exp := 0 }

/-- The Node class: one joint of the skeleton.  Pointers (parent, children)
are heap indices; jointObj is the handle of the scene node the host returned
for this joint (none models a null MObject, the default-constructed state
and also what a rejected creation request leaves behind). -/
structure Node where
  name : String := ""
  offset : List Dec := []
  channels : List String := []
  jointObj : Option Nat := none
  parent : Option Nat := none
  children : List Nat := []
  channelValues : List (List Dec) := []
deriving Repr, DecidableEq, Inhabited

/-- Loop `for (int i = 0; i < k; i++) { tokens >> cur; out[i] = stof(cur); }`
shared by readNode and the End-branch of the hierarchy loop.  Returns the
values written so far, the remaining tokens, and Err.thrown when a token was
not convertible (the C++ exception escapes before the assignment). -/
def readFloats : Nat → List String → List Dec × List String × Option Err
  | 0, ts => ([], ts, none)
  | k + 1, ts =>
    let (t, ts) := next ts
    match stof? t with
    | none => ([], ts, some .thrown)
    | some v =>
      let (vs, ts, e) := readFloats k ts
      (v :: vs, ts, e)

/-- Loop reading k tokens into a list (the CHANNELS names). -/
def readTokens : Nat → List String → List String × List String
  | 0, ts => ([], ts)
  | k + 1, ts =>
    let (t, ts) := next ts
    let (us, ts) := readTokens k ts
    (t :: us, ts)

/-- BvhTranslator::readNode (src/bvhTranslator.cpp lines 358-391): fills the
freshly allocated node from the token stream.  Returns the node in the state
it reached (the C++ mutates it through a reference, so a failing call leaves
a partially filled object), the remaining tokens, and none when the function
returned true, some Err.fail when it returned false, some Err.thrown when
std::stof or std::stoi threw. -/
def readNode (ts : List String) : Node × List String × Option Err :=
  let (nm, ts) := next ts
  let node : Node := { name := nm }
  let (t, ts) := next ts
  if t ≠ "\x7b" then (node, ts, some .fail)
  else
    let (t, ts) := next ts
    if t ≠ "OFFSET" then (node, ts, some .fail)
    else
      match readFloats 3 ts with
      | (vs, ts, some e) => ({ node with offset := vs }, ts, some e)
      | (vs, ts, none) =>
        let node := { node with offset := vs }
        let (t, ts) := next ts
        if t ≠ "CHANNELS" then (node, ts, some .fail)
        else
          let (t, ts) := next ts
          match stoi? t with
          | none => (node, ts, some .thrown)
          | some nbChannels =>
            let (chs, ts) := readTokens nbChannels.toNat ts
            ({ node with channels := chs }, ts, none)

/-- Appends child to the children vector of the node at index parent
(`nodeQueue.back()->children.push_back(node)`). -/
def pushChild (heap : List Node) (parent child : Nat) : List Node :=
  heap.set parent
    { heap.getD parent default with
      children := (heap.getD parent default).children ++ [child] }

/-- Result of the inner hierarchy loop `while (!nodeQueue.empty())`: the
loop ran to completion, or the reader returned early (Err.fail for
MS::kFailure, Err.thrown for an escaped exception), or the fuel ran out
(never reached through the wrapper, which always hands enough). -/
inductive HR where
  | ok (heap : List Node) (ts : List String)
  | stop (e : Err) (heap : List Node)
  | spin
deriving Repr, DecidableEq

/-- Inner hierarchy loop of BvhTranslator::reader (lines 242-286): the open
joints form an explicit stack; the C++ deque is only used through push_back,
back and pop_back, so it is modelled as a list whose head is the C++ back.
On JOINT a new node is read and pushed, on End an End-Site leaf is read and
attached without being pushed (the token after End is stored as the leaf
name, unvalidated), on the closing brace the stack is popped, and any other
token is a fatal error. -/
def hierLoop : Nat → List Node → List Nat → List String → HR
  | _, heap, [], ts => .ok heap ts
  | 0, _, _ :: _, _ => .spin
  | fuel + 1, heap, top :: rest, ts =>
    let (cur, ts) := next ts
    if cur = "JOINT" then
      let ptr := heap.length
      let heap := heap ++ [{}]
      match readNode ts with
      | (node, ts, some e) => .stop e (heap.set ptr node)
      | (node, ts, none) =>
        let heap := heap.set ptr { node with parent := some top }
        let heap := pushChild heap top ptr
        hierLoop fuel heap (ptr :: top :: rest) ts
    else if cur = "End" then
      let ptr := heap.length
      let heap := heap ++ [{}]
      let (nm, ts) := next ts
      let heap := heap.set ptr { name := nm }
      let (t, ts) := next ts
      if t ≠ "\x7b" then .stop .fail heap
      else
        let (t, ts) := next ts
        if t ≠ "OFFSET" then .stop .fail heap
        else
          match readFloats 3 ts with
          | (vs, ts, some e) => .stop e (heap.set ptr { name := nm, offset := vs })
          | (vs, ts, none) =>
            let heap := heap.set ptr { name := nm, offset := vs, parent := some top }
            let heap := pushChild heap top ptr
            let (t, ts) := next ts
            if t ≠ "\x7d" then .stop .fail heap
            else hierLoop fuel heap (top :: rest) ts
    else if cur = "\x7d" then hierLoop fuel heap rest ts
    else .stop .fail heap

/-- Result of the outer hierarchy loop `while (currentToken == "ROOT")`:
heap, collected root pointers, the first non-ROOT token and the rest of the
stream, or an early return, or fuel exhaustion (again unreachable through
the wrapper). -/
inductive RH where
  | ok (heap : List Node) (roots : List Nat) (cur : String) (ts : List String)
  | stop (e : Err) (heap : List Node)
  | spin
deriving Repr, DecidableEq

/-- Outer hierarchy loop of BvhTranslator::reader (lines 234-288): one root
subtree per leading ROOT token.  The inner loop receives enough fuel to
consume every remaining token, which is an upper bound on its iterations
since each iteration extracts at least one token. -/
def rootsHier : Nat → List Node → List Nat → String → List String → RH
  | 0, _, _, _, _ => .spin
  | fuel + 1, heap, roots, cur, ts =>
    if cur = "ROOT" then
      let ptr := heap.length
      let heap := heap ++ [{}]
      match readNode ts with
      | (node, ts, some e) => .stop e (heap.set ptr node)
      | (node, ts, none) =>
        let heap := heap.set ptr node
        let roots := roots ++ [ptr]
        match hierLoop (ts.length + 1) heap [ptr] ts with
        | .spin => .spin
        | .stop e heap => .stop e heap
        | .ok heap ts =>
          let (cur, ts) := next ts
          rootsHier fuel heap roots cur ts
    else .ok heap roots cur ts

/-- Result of parsing the motion header. -/
inductive MH where
  | ok (nbFrames : Int) (timeFrame : Dec) (ts : List String)
  | stop (e : Err)
deriving Repr, DecidableEq

/-- Motion header of BvhTranslator::reader (lines 290-322): the literal
sequence MOTION Frames: n Frame Time: t, with stoi and stof throwing on a
malformed number. -/
def motionHeader (cur : String) (ts : List String) : MH :=
  if cur ≠ "MOTION" then .stop .fail
  else
    let (cur, ts) := next ts
    if cur ≠ "Frames:" then .stop .fail
    else
      let (cur, ts) := next ts
      match stoi? cur with
      | none => .stop .thrown
      | some nbFrames =>
        let (cur, ts) := next ts
        if cur ≠ "Frame" then .stop .fail
        else
          let (cur, ts) := next ts
          if cur ≠ "Time:" then .stop .fail
          else
            let (cur, ts) := next ts
            match stof? cur with
            | none => .stop .thrown
            | some timeFrame => .ok nbFrames timeFrame ts

/-- BvhTranslator::readAnimNode (lines 393-402): returns true immediately
for a channel-less node; otherwise it computes the channel count into a
local variable and also returns true, reading no token and recording no
value.  The currentTime argument is never used. -/
def readAnimNode (node : Node) (ts : List String) (currentTime : Dec) :
    Bool × Node × List String :=
  if node.channels.isEmpty then (true, node, ts)
  else
    let _nbChannels : Nat := node.channels.length
    (true, node, ts)

/-- Conversion of `node->children.size() - 1` to the int childIndex: the
size_t subtraction wraps around for an empty vector and the conversion of
the result to int yields -1 on the usual ABIs, so the value is size - 1 over
the integers. -/
def initialChildIndex (n : Nat) : Int := (n : Int) - 1

/-- Inner child loop of the motion section (line 338):
`for (int childIndex = node->children.size() - 1; childIndex >= 0; i--)`.
The loop update decrements the frame counter i, not childIndex, so
childIndex never changes; each iteration pushes children[childIndex] again.
The fuel bounds the number of iterations; none reports that the loop was
still running. -/
def childLoop : Nat → List Nat → Int → Int → List Nat → Option (Int × List Nat)
  | fuel, children, ci, i, stack =>
    if 0 ≤ ci then
      match fuel with
      | 0 => none
      | fuel + 1 => childLoop fuel children ci (i - 1) (children.getD ci.toNat 0 :: stack)
    else some (i, stack)

/-- Result of the per-frame traversal loops: finished with the final heap,
frame counter, remaining tokens and the pointers visited (passed to
readAnimNode) so far; or readAnimNode returned false (MS::kFailure); or the
fuel ran out with the recorded visits. -/
inductive QR where
  | ok (heap : List Node) (i : Int) (ts : List String) (vis : List Nat)
  | fail (heap : List Node) (vis : List Nat)
  | spin (vis : List Nat)
deriving Repr, DecidableEq

/-- Per-frame node queue loop (lines 331-342): pops the back of the queue,
calls readAnimNode on it, then runs the child loop.  vis is a ghost log of
the nodes handed to readAnimNode, in order. -/
def queueLoop : Nat → List Node → List Nat → Int → List String → Dec → List Nat → QR
  | _, heap, [], i, ts, _, vis => .ok heap i ts vis
  | 0, _, _ :: _, _, _, _, vis => .spin vis
  | fuel + 1, heap, p :: rest, i, ts, time, vis =>
    let node := heap.getD p default
    let (st, node, ts) := readAnimNode node ts time
    let heap := heap.set p node
    let vis := vis ++ [p]
    if st then
      match childLoop fuel node.children (initialChildIndex node.children.length) i rest with
      | none => .spin vis
      | some (i, stack) => queueLoop fuel heap stack i ts time vis
    else .fail heap vis

/-- Loop over rootVect inside one frame (lines 329-343): each root is pushed
onto the (empty) queue and the queue loop runs. -/
def rootsLoop : Nat → List Node → List Nat → Int → List String → Dec → List Nat → QR
  | _, heap, [], i, ts, _, vis => .ok heap i ts vis
  | fuel, heap, r :: rs, i, ts, time, vis =>
    match queueLoop fuel heap [r] i ts time vis with
    | .ok heap i ts vis => rootsLoop fuel heap rs i ts time vis
    | .fail heap vis => .fail heap vis
    | .spin vis => .spin vis

/-- Result of the whole frame loop. -/
inductive FR where
  | ok (heap : List Node) (ts : List String) (vis : List Nat)
  | fail (heap : List Node) (vis : List Nat)
  | spin (vis : List Nat)
deriving Repr, DecidableEq

/-- Frame loop (lines 328-345): `for (int i = 0; i < nbFrames; i++)`, with
`time += timeFrame` after each frame.  The frame counter i flows through the
inner loops because the child loop mutates it. -/
def frameLoop : Nat → List Node → List Nat → Int → Int → List String → Dec → Dec → List Nat → FR
  | 0, heap, _, i, nbFrames, ts, _, _, vis =>
    if i < nbFrames then .spin vis else .ok heap ts vis
  | fuel + 1, heap, roots, i, nbFrames, ts, time, timeFrame, vis =>
    if i < nbFrames then
      match rootsLoop fuel heap roots i ts time vis with
      | .ok heap i ts vis => frameLoop fuel heap roots (i + 1) nbFrames ts (time.add timeFrame) timeFrame vis
      | .fail heap vis => .fail heap vis
      | .spin vis => .spin vis
    else .ok heap ts vis

/-- Creation request issued to the host scene graph: the joint pointer, the
display name and offset pushed onto the created object, and the parent
argument of MFnIkJoint::create — none for the parameterless root form,
some h when the parent jointObj handle h was passed (h itself is none when
that handle is the null MObject, e.g. after a rejected creation). -/
structure CreateReq where
  ptr : Nat
  name : String
  offset : List Dec
  parentArg : Option (Option Nat)
deriving Repr, DecidableEq

/-- The `for (Node* child : children) child->mayaCreate();` loop, with the
recursive call passed in as f: the heap is threaded left to right and the
request lists are concatenated in child order. -/
def mayaCreateList (f : List Node → Nat → List Node × List CreateReq) :
    List Node → List Nat → List Node × List CreateReq
  | heap, [] => (heap, [])
  | heap, c :: cs =>
    let (heap, r1) := f heap c
    let (heap, r2) := mayaCreateList f heap cs
    (heap, r1 ++ r2)

/-- Creation request Node::mayaCreate assembles for the joint at ptr: its
name and offset (pushed onto the created object by setName and
setTranslation) and the parent argument of MFnIkJoint::create — the
jointObj handle of the parent when the node has one, the parameterless
root form otherwise. -/
def mkReq (heap : List Node) (ptr : Nat) : CreateReq :=
  { ptr := ptr
    name := (heap.getD ptr default).name
    offset := (heap.getD ptr default).offset
    parentArg :=
      match (heap.getD ptr default).parent with
      | some pp => some ((heap.getD pp default).jointObj)
      | none => none }

/-- Node::mayaCreate (lines 112-128): issues the creation request for this
joint, stores whatever handle the host returned (a rejection stores the
null handle none; the returned status is never inspected), and recurses
into the children unconditionally.  The host is a function from the request
to the handle, none meaning the request was rejected.  Returns the heap with
the jointObj fields filled and the list of requests issued, in order.  The
fuel bounds the recursion depth; parser-produced trees always give children
larger indices than their parent, so heap.length + 1 is sufficient there.
The recursion over fuel is spelled with Nat.rec so that the definition
unfolds by plain reduction. -/
def mayaCreate (host : CreateReq → Option Nat) (fuel : Nat) : List Node → Nat → List Node × List CreateReq :=
  Nat.rec (motive := fun _ => List Node → Nat → List Node × List CreateReq)
    (fun heap _ => (heap, []))
    (fun _ rec heap ptr =>
      let node := heap.getD ptr default
      let req : CreateReq := mkReq heap ptr
      let heap := heap.set ptr { node with jointObj := host req }
      let (heap, reqs) := mayaCreateList rec heap node.children
      (heap, req :: reqs))
    fuel

/-- The `for (Node* root : rootVect) root->mayaCreate();` loop at lines
350-352. -/
def createRoots (host : CreateReq → Option Nat) (fuel : Nat) : List Node → List Nat → List Node × List CreateReq
  | heap, [] => (heap, [])
  | heap, r :: rs =>
    let (heap, r1) := mayaCreate host fuel heap r
    let (heap, r2) := createRoots host fuel heap rs
    (heap, r1 ++ r2)

/-- Overall outcome of BvhTranslator::reader.  success carries the final
heap, the root pointers, the ghost visit log of the motion traversal, the
creation requests issued to the host, the list of pointers the reader
released (the source contains no delete, so every path leaves it empty),
and the tokens left unconsumed.  failure and thrown carry the abandoned
heap together with the (always empty) creation and release logs of that
path.  spin reports fuel exhaustion inside the motion frame loop, with the
visits recorded so far. -/
inductive ReaderResult where
  | success (heap : List Node) (roots : List Nat) (vis : List Nat)
      (created : List CreateReq) (freed : List Nat) (rest : List String)
  | failure (heap : List Node) (created : List CreateReq) (freed : List Nat)
  | thrown (heap : List Node) (created : List CreateReq) (freed : List Nat)
  | spin (vis : List Nat)
deriving Repr, DecidableEq

/-- Predicate for the spin outcome. -/
def ReaderResult.isSpin : ReaderResult → Bool
  | .spin _ => true
  | _ => false

/-- Phases of BvhTranslator::reader after the hierarchy has been parsed:
the MOTION header, the frame loop, and the mayaCreate walk over the roots. -/
def readerAfterHier (fuel : Nat) (host : CreateReq → Option Nat) : RH → ReaderResult
  | .spin => .spin []
  | .stop .fail heap => .failure heap [] []
  | .stop .thrown heap => .thrown heap [] []
  | .ok heap roots cur ts =>
    match motionHeader cur ts with
    | .stop .fail => .failure heap [] []
    | .stop .thrown => .thrown heap [] []
    | .ok nbFrames timeFrame ts =>
      match frameLoop fuel heap roots 0 nbFrames ts Dec.zero timeFrame [] with
      | .spin vis => .spin vis
      | .fail heap _ => .failure heap [] []
      | .ok heap ts vis =>
        let (heap, created) := createRoots host (heap.length + 1) heap roots
        .success heap roots vis created [] ts

/-- BvhTranslator::reader (lines 200-355) on the token stream of the file
content: checks the HIERARCHY keyword, parses the root subtrees, the motion
header and the frames, then walks the trees issuing host creation requests.
The fuel only budgets the frame loop; both hierarchy loops receive
(tokens + 1) fuel, enough for any input since every iteration consumes at
least one token. -/
def reader (fuel : Nat) (ts0 : List String) (host : CreateReq → Option Nat) : ReaderResult :=
  let (cur, ts) := next ts0
  if cur ≠ "HIERARCHY" then .failure [] [] []
  else
    let (cur, ts) := next ts
    readerAfterHier fuel host (rootsHier (ts.length + 1) [] [] cur ts)

/-- Host that accepts every creation request, handing back a fresh handle. -/
def hostAccepting : CreateReq → Option Nat := fun r => some r.ptr

/-- Host that rejects every creation request. -/
def hostRejecting : CreateReq → Option Nat := fun _ => none

/-- BvhTranslator::identifyFile (lines 418-427): despite the comment about
checking the magic marker, the body inspects nothing and returns
kIsMyFileType unconditionally. -/
inductive MFileKind where
  | kIsMyFileType
  | kNotMyFileType
  | kCouldBeMyFileType
deriving Repr, DecidableEq

/-- The identifyFile member, with the file name, buffer and size arguments
it receives from Maya. -/
def identifyFile (_fileName : String) (_buffer : String) (_size : Int) : MFileKind :=
  .kIsMyFileType

/-- Heap after the successful part of the End branch of the hierarchy loop:
allocate the leaf, store the name read right after the End token, then the
offsets and the parent pointer, and append the leaf to the children of the
enclosing joint at the top of the stack.  The leaf keeps the
default-constructed empty channels and children vectors. -/
def endSiteHeap (heap : List Node) (top : Nat) (s : String) (vs : List Dec) : List Node :=
  pushChild
    (((heap ++ [({} : Node)]).set heap.length { name := s }).set heap.length
      { name := s, offset := vs, parent := some top })
    top heap.length

/-- Children part of walkTrace, with the recursive call passed in as f. -/
def walkTraceList (f : Nat → List Nat) : List Nat → List Nat
  | [] => []
  | c :: cs => f c ++ walkTraceList f cs

/-- Sequence of joints for which Node::mayaCreate issues creation requests,
computed from the tree shape alone (the children vectors, indexed by
pointer).  Used to state that the walk does not depend on the host
responses. -/
def walkTrace (fuel : Nat) : List (List Nat) → Nat → List Nat :=
  Nat.rec (motive := fun _ => List (List Nat) → Nat → List Nat)
    (fun _ _ => [])
    (fun _ rec shape ptr => ptr :: walkTraceList (rec shape) (shape.getD ptr []))
    fuel

/-!
Helper lemmas, followed by the claim theorems.
-/

/-- List.getD after set at the same index, in range. -/
theorem getD_set_self {α : Type} (l : List α) (j : Nat) (v d : α) (h : j < l.length) :
    (l.set j v).getD j d = v := by
  induction l generalizing j with
  | nil => simp at h
  | cons a t ih =>
    cases j with
    | zero => rfl
    | succ n => simpa using ih n (by simpa using h)

/-- List.getD after set at a different index. -/
theorem getD_set_ne {α : Type} (l : List α) (i j : Nat) (v d : α) (h : i ≠ j) :
    (l.set j v).getD i d = l.getD i d := by
  induction l generalizing i j with
  | nil => simp
  | cons a t ih =>
    cases j with
    | zero =>
      cases i with
      | zero => exact absurd rfl h
      | succ m => simp
    | succ n =>
      cases i with
      | zero => simp
      | succ m => simpa using ih m n (by omega)

/-- readAnimNode returns true and leaves both the node and the token stream
untouched, whatever the node is. -/
theorem readAnimNode_eq (node : Node) (ts : List String) (t : Dec) :
    readAnimNode node ts t = (true, node, ts) := by
  unfold readAnimNode
  split <;> rfl

/-- The child loop never exits once entered with a non-negative childIndex:
the loop update decrements the frame counter instead of childIndex. -/
theorem childLoop_spin (fuel : Nat) :
    ∀ (ch : List Nat) (ci i : Int) (st : List Nat), 0 ≤ ci →
      childLoop fuel ch ci i st = none := by
  induction fuel with
  | zero =>
    intro ch ci i st h
    unfold childLoop
    simp [h]
  | succ n ih =>
    intro ch ci i st h
    unfold childLoop
    simpa [h] using ih ch ci (i - 1) (ch.getD ci.toNat 0 :: st) h

/-- Once the queue loop pops a node that has at least one child, it hangs in
the child loop: whatever the fuel, the outcome is spin, and the only node
possibly visited beyond the log passed in is that node itself. -/
theorem queueLoop_spin (fuel : Nat) (heap : List Node) (p : Nat) (rest : List Nat)
    (i : Int) (ts : List String) (time : Dec) (vis : List Nat)
    (h : (heap.getD p default).children ≠ []) :
    queueLoop fuel heap (p :: rest) i ts time vis = .spin vis
    ∨ queueLoop fuel heap (p :: rest) i ts time vis = .spin (vis ++ [p]) := by
  cases fuel with
  | zero => left; rfl
  | succ n =>
    right
    have hlen : (heap.getD p default).children.length ≠ 0 := by
      simpa using h
    have hci : 0 ≤ initialChildIndex (heap.getD p default).children.length := by
      unfold initialChildIndex
      omega
    have hcl := childLoop_spin n (heap.getD p default).children
      (initialChildIndex (heap.getD p default).children.length) i rest hci
    unfold queueLoop
    simp only [readAnimNode_eq]
    rw [hcl]
    simp

/-- The per-frame root loop spins as soon as its first root has a child. -/
theorem rootsLoop_spin (fuel : Nat) (heap : List Node) (r : Nat) (rs : List Nat)
    (i : Int) (ts : List String) (time : Dec) (vis : List Nat)
    (h : (heap.getD r default).children ≠ []) :
    rootsLoop fuel heap (r :: rs) i ts time vis = .spin vis
    ∨ rootsLoop fuel heap (r :: rs) i ts time vis = .spin (vis ++ [r]) := by
  rcases queueLoop_spin fuel heap r [] i ts time vis h with hq | hq
  · left; unfold rootsLoop; simp [hq]
  · right; unfold rootsLoop; simp [hq]

/-- The frame loop spins for any fuel when at least one frame remains and
the first root has a child. -/
theorem frameLoop_spin (fuel : Nat) (heap : List Node) (r : Nat) (rs : List Nat)
    (i nb : Int) (ts : List String) (time tf : Dec) (vis : List Nat)
    (hi : i < nb) (h : (heap.getD r default).children ≠ []) :
    frameLoop fuel heap (r :: rs) i nb ts time tf vis = .spin vis
    ∨ frameLoop fuel heap (r :: rs) i nb ts time tf vis = .spin (vis ++ [r]) := by
  cases fuel with
  | zero => left; unfold frameLoop; simp [hi]
  | succ n =>
    rcases rootsLoop_spin n heap r rs i ts time vis h with hr | hr
    · left; unfold frameLoop; simp [hi, hr]
    · right; unfold frameLoop; simp [hi, hr]

/-- After a successful hierarchy parse whose first root has a child, the
rest of the reader spins for every fuel, visiting at most that root. -/
theorem readerAfterHier_spin (fuel : Nat) (host : CreateReq → Option Nat)
    (heap : List Node) (r : Nat) (rs : List Nat) (cur : String)
    (ts ts2 : List String) (nb : Int) (tf : Dec)
    (h3 : motionHeader cur ts = .ok nb tf ts2) (h5 : (0 : Int) < nb)
    (h6 : (heap.getD r default).children ≠ []) :
    readerAfterHier fuel host (.ok heap (r :: rs) cur ts) = .spin []
    ∨ readerAfterHier fuel host (.ok heap (r :: rs) cur ts) = .spin [r] := by
  rcases frameLoop_spin fuel heap r rs 0 nb ts2 Dec.zero tf [] h5 h6 with hf | hf
  · left; unfold readerAfterHier; simp [h3, hf]
  · right; unfold readerAfterHier; simp [h3, hf]

/-- C10: for every file name, buffer content and size — including buffers
that do not start with the magic marker — identifyFile returns
kIsMyFileType: the body inspects nothing, so every candidate file is
unconditionally claimed as this translator's type. -/
theorem c10_identifyFile_unconditional (fileName buffer : String) (size : Int) :
    identifyFile fileName buffer size = .kIsMyFileType :=
  rfl

/-- C1 (code bug): on a well-formed input with one root carrying three
channels and one frame, the reader succeeds but readAnimNode consumes no
motion token and records no value row: the three frame values are left in
the stream (rest component) and channelValues of the joint stays empty,
although the claim requires three tokens to be consumed and appended per
frame. -/
theorem c1_motion_values_not_recorded :
    reader 10 (tokenize "HIERARCHY ROOT a \x7b OFFSET 0 0 0 CHANNELS 3 Xposition Yposition Zposition \x7d MOTION Frames: 1 Frame Time: 0.1 1 2 3") hostAccepting
      = .success
          [{ name := "a", offset := [⟨0, 0⟩, ⟨0, 0⟩, ⟨0, 0⟩],
             channels := ["Xposition", "Yposition", "Zposition"], jointObj := some 0 }]
          [0] [0]
          [{ ptr := 0, name := "a", offset := [⟨0, 0⟩, ⟨0, 0⟩, ⟨0, 0⟩], parentArg := none }]
          [] ["1", "2", "3"] := by
  decide

/-- C2 (code bug): the reader does not terminate on the well-formed
concrete scenario of the specification (one root with an End-Site child and
two frames): for every fuel, the motion frame loop is still spinning,
because the child loop decrements the frame index instead of childIndex. -/
theorem c2_reader_never_terminates (fuel : Nat) :
    (reader fuel (tokenize "HIERARCHY ROOT Hips \x7b OFFSET 0 0 0 CHANNELS 3 Xposition Yposition Zposition End Site \x7b OFFSET 0 5 0 \x7d \x7d MOTION Frames: 2 Frame Time: 0.1 0 0 0 1 0 0") hostAccepting).isSpin = true := by
  have h0 : reader fuel (tokenize "HIERARCHY ROOT Hips \x7b OFFSET 0 0 0 CHANNELS 3 Xposition Yposition Zposition End Site \x7b OFFSET 0 5 0 \x7d \x7d MOTION Frames: 2 Frame Time: 0.1 0 0 0 1 0 0") hostAccepting
      = readerAfterHier fuel hostAccepting
          (.ok
            [{ name := "Hips", offset := [⟨0, 0⟩, ⟨0, 0⟩, ⟨0, 0⟩],
               channels := ["Xposition", "Yposition", "Zposition"], children := [1] },
             { name := "Site", offset := [⟨0, 0⟩, ⟨5, 0⟩, ⟨0, 0⟩], parent := some 0 }]
            [0] "MOTION"
            ["Frames:", "2", "Frame", "Time:", "0.1", "0", "0", "0", "1", "0", "0"]) := rfl
  rw [h0]
  rcases readerAfterHier_spin fuel hostAccepting
      [{ name := "Hips", offset := [⟨0, 0⟩, ⟨0, 0⟩, ⟨0, 0⟩],
         channels := ["Xposition", "Yposition", "Zposition"], children := [1] },
       { name := "Site", offset := [⟨0, 0⟩, ⟨5, 0⟩, ⟨0, 0⟩], parent := some 0 }]
      0 [] "MOTION"
      ["Frames:", "2", "Frame", "Time:", "0.1", "0", "0", "0", "1", "0", "0"]
      ["0", "0", "0", "1", "0", "0"] 2 ⟨1, 1⟩
      (by decide) (by decide) (by decide) with h | h <;> rw [h] <;> rfl

/-- C3 (code bug): on a well-formed input whose root a was discovered first
and whose children b and c were discovered next (pointers 0, 1, 2 in
discovery order), the motion traversal of the single frame never matches
that order: for every fuel the traversal is still spinning having visited
at most the root (pointer 0), so the children are never visited at all,
instead of being visited once each in declaration order. -/
theorem c3_motion_visits_differ_from_discovery (fuel : Nat) :
    reader fuel (tokenize "HIERARCHY ROOT a \x7b OFFSET 0 0 0 CHANNELS 0 JOINT b \x7b OFFSET 0 0 0 CHANNELS 0 \x7d JOINT c \x7b OFFSET 0 0 0 CHANNELS 0 \x7d \x7d MOTION Frames: 1 Frame Time: 0.1") hostAccepting = .spin []
    ∨ reader fuel (tokenize "HIERARCHY ROOT a \x7b OFFSET 0 0 0 CHANNELS 0 JOINT b \x7b OFFSET 0 0 0 CHANNELS 0 \x7d JOINT c \x7b OFFSET 0 0 0 CHANNELS 0 \x7d \x7d MOTION Frames: 1 Frame Time: 0.1") hostAccepting = .spin [0] := by
  have h0 : reader fuel (tokenize "HIERARCHY ROOT a \x7b OFFSET 0 0 0 CHANNELS 0 JOINT b \x7b OFFSET 0 0 0 CHANNELS 0 \x7d JOINT c \x7b OFFSET 0 0 0 CHANNELS 0 \x7d \x7d MOTION Frames: 1 Frame Time: 0.1") hostAccepting
      = readerAfterHier fuel hostAccepting
          (.ok
            [{ name := "a", offset := [⟨0, 0⟩, ⟨0, 0⟩, ⟨0, 0⟩], children := [1, 2] },
             { name := "b", offset := [⟨0, 0⟩, ⟨0, 0⟩, ⟨0, 0⟩], parent := some 0 },
             { name := "c", offset := [⟨0, 0⟩, ⟨0, 0⟩, ⟨0, 0⟩], parent := some 0 }]
            [0] "MOTION"
            ["Frames:", "1", "Frame", "Time:", "0.1"]) := rfl
  rw [h0]
  exact readerAfterHier_spin fuel hostAccepting
      [{ name := "a", offset := [⟨0, 0⟩, ⟨0, 0⟩, ⟨0, 0⟩], children := [1, 2] },
       { name := "b", offset := [⟨0, 0⟩, ⟨0, 0⟩, ⟨0, 0⟩], parent := some 0 },
       { name := "c", offset := [⟨0, 0⟩, ⟨0, 0⟩, ⟨0, 0⟩], parent := some 0 }]
      0 [] "MOTION" ["Frames:", "1", "Frame", "Time:", "0.1"] [] 1 ⟨1, 1⟩
      (by decide) (by decide) (by decide)

/-- C5 (code bug): on an input whose first OFFSET component is not a
number, the reader neither returns a failure status nor recovers: the
std::stof exception escapes uncaught (outcome thrown, distinct from
failure), with the half-filled joint abandoned. -/
theorem c5_numeric_failure_escapes_as_exception :
    reader 10 (tokenize "HIERARCHY ROOT a \x7b OFFSET x 0 0 \x7d") hostAccepting
      = .thrown [{ name := "a" }] [] [] := by
  decide

/-- On every path on which readerAfterHier produces a failure result, the
creation-request log and the release log of that result are empty. -/
theorem readerAfterHier_failure (fuel : Nat) (host : CreateReq → Option Nat) (rh : RH)
    (heap : List Node) (c : List CreateReq) (f : List Nat)
    (h : readerAfterHier fuel host rh = .failure heap c f) : c = [] ∧ f = [] := by
  unfold readerAfterHier at h
  repeat' split at h
  all_goals cases h <;> exact ⟨rfl, rfl⟩

/-- C4 counterexample: on the malformed input of the claim (BADTOKEN in
place of CHANNELS), the reader aborts with a failure whose heap still holds
the one allocated joint while the release log is empty: the allocated joint
is leaked, not released, contradicting the claim that allocations are
unwound. -/
theorem c4_counterexample_joint_leaked :
    reader 10 (tokenize "HIERARCHY ROOT Hips \x7b OFFSET 0 0 0 BADTOKEN \x7d") hostAccepting
      = .failure [{ name := "Hips", offset := [⟨0, 0⟩, ⟨0, 0⟩, ⟨0, 0⟩] }] [] []
    ∧ [{ name := "Hips", offset := [⟨0, 0⟩, ⟨0, 0⟩, ⟨0, 0⟩] }] ≠ ([] : List Node) :=
  ⟨by decide, by decide⟩

/-- C4 amended: whenever the reader returns a failure result, no host scene
node was created for any joint allocated before the failure point (the
creation log is empty), but the allocated joints are not released either
(the release log is empty: the source never deletes a node) — they are
leaked rather than unwound. -/
theorem c4_amended_failure_creates_nothing_frees_nothing (fuel : Nat) (ts0 : List String)
    (host : CreateReq → Option Nat) (heap : List Node) (c : List CreateReq) (f : List Nat)
    (h : reader fuel ts0 host = .failure heap c f) : c = [] ∧ f = [] := by
  unfold reader at h
  repeat' split at h
  all_goals first
    | (cases h <;> exact ⟨rfl, rfl⟩)
    | exact readerAfterHier_failure _ _ _ _ _ _ h

/-- Witness for the amended C4 theorem at the concrete malformed input of
the claim. -/
theorem c4_amended_witness : ([] : List CreateReq) = [] ∧ ([] : List Nat) = [] :=
  c4_amended_failure_creates_nothing_frees_nothing 10
    (tokenize "HIERARCHY ROOT Hips \x7b OFFSET 0 0 0 BADTOKEN \x7d") hostAccepting
    [{ name := "Hips", offset := [⟨0, 0⟩, ⟨0, 0⟩, ⟨0, 0⟩] }] [] [] (by decide)

/-- C6 counterexample: a ROOT or JOINT body holding a name, an opening
brace, OFFSET with three floats but no CHANNELS keyword makes readNode
return false (a fatal parse error), instead of succeeding with an empty
channel list as the claim states. -/
theorem c6_counterexample_missing_channels_fails :
    readNode (tokenize "a \x7b OFFSET 0 0 0 \x7d")
      = ({ name := "a", offset := [⟨0, 0⟩, ⟨0, 0⟩, ⟨0, 0⟩] }, [], some Err.fail) := by
  decide

/-- C6 amended: for ROOT and JOINT nodes the CHANNELS block is mandatory:
whenever the token after the three OFFSET floats differs from the CHANNELS
keyword, readNode fails with a parse error (returns false), leaving the
channel list empty only as part of the partially filled node. -/
theorem c6_amended_channels_mandatory (nm o1 o2 o3 : String) (v1 v2 v3 : Dec)
    (t : String) (rest : List String)
    (h1 : stof? o1 = some v1) (h2 : stof? o2 = some v2) (h3 : stof? o3 = some v3)
    (ht : t ≠ "CHANNELS") :
    readNode (nm :: "\x7b" :: "OFFSET" :: o1 :: o2 :: o3 :: t :: rest)
      = ({ name := nm, offset := [v1, v2, v3] }, rest, some Err.fail) := by
  simp [readNode, next, readFloats, h1, h2, h3, ht]

/-- Witness for the amended C6 theorem at a concrete node body whose
post-OFFSET token is a closing brace. -/
theorem c6_amended_witness :
    readNode ["J", "\x7b", "OFFSET", "1", "2", "3", "\x7d"]
      = ({ name := "J", offset := [⟨1, 0⟩, ⟨2, 0⟩, ⟨3, 0⟩] }, [], some Err.fail) :=
  c6_amended_channels_mandatory "J" "1" "2" "3" ⟨1, 0⟩ ⟨2, 0⟩ ⟨3, 0⟩ "\x7d" []
    (by decide) (by decide) (by decide) (by decide)

/-- C7 counterexample: an input whose End keyword is followed by the token
Bogus instead of the literal Site parses successfully (with Frames: 0 so
the motion loop exits): the End-Site leaf is accepted under the name Bogus
and the reader returns success, instead of the fatal parse error the claim
requires. -/
theorem c7_counterexample_end_bogus_accepted :
    reader 10 (tokenize "HIERARCHY ROOT a \x7b OFFSET 0 0 0 CHANNELS 0 End Bogus \x7b OFFSET 0 5 0 \x7d \x7d MOTION Frames: 0 Frame Time: 0.1") hostAccepting
      = .success
          [{ name := "a", offset := [⟨0, 0⟩, ⟨0, 0⟩, ⟨0, 0⟩], jointObj := some 0, children := [1] },
           { name := "Bogus", offset := [⟨0, 0⟩, ⟨5, 0⟩, ⟨0, 0⟩], jointObj := some 1, parent := some 0 }]
          [0] []
          [{ ptr := 0, name := "a", offset := [⟨0, 0⟩, ⟨0, 0⟩, ⟨0, 0⟩], parentArg := none },
           { ptr := 1, name := "Bogus", offset := [⟨0, 0⟩, ⟨5, 0⟩, ⟨0, 0⟩], parentArg := some (some 0) }]
          [] [] := by
  decide

/-- C7 amended: the token following End is consumed as the node name with
no validation at all: for every string s in that position — Site or not —
the same input parses successfully, the leaf simply carrying s as its name
through to the host creation request. -/
theorem c7_amended_end_name_unvalidated (s : String) :
    reader 10
      ["HIERARCHY", "ROOT", "a", "\x7b", "OFFSET", "0", "0", "0", "CHANNELS", "0",
       "End", s, "\x7b", "OFFSET", "0", "5", "0", "\x7d", "\x7d",
       "MOTION", "Frames:", "0", "Frame", "Time:", "0.1"] hostAccepting
      = .success
          [{ name := "a", offset := [⟨0, 0⟩, ⟨0, 0⟩, ⟨0, 0⟩], jointObj := some 0, children := [1] },
           { name := s, offset := [⟨0, 0⟩, ⟨5, 0⟩, ⟨0, 0⟩], jointObj := some 1, parent := some 0 }]
          [0] []
          [{ ptr := 0, name := "a", offset := [⟨0, 0⟩, ⟨0, 0⟩, ⟨0, 0⟩], parentArg := none },
           { ptr := 1, name := s, offset := [⟨0, 0⟩, ⟨5, 0⟩, ⟨0, 0⟩], parentArg := some (some 0) }]
          [] [] :=
  rfl

/-- C8: the End branch of the hierarchy loop turns an End-Site leaf into a
node whose channel list and children list are the (empty) defaults, whose
parent is the enclosing joint at the top of the open stack and which is
appended to the children of that joint — occupying a slot in the tree —
while the stack continues unchanged (the leaf is never pushed, so it can
never receive children); and readAnimNode on any node with an empty channel
list returns success consuming zero tokens, so End-Site joints consume
nothing during motion parsing of any frame. -/
theorem c8_end_site_empty_and_consumes_nothing :
    (∀ (fuel : Nat) (heap : List Node) (top : Nat) (rest : List Nat) (s : String) (ts : List String),
        top < heap.length →
          hierLoop (fuel + 1) heap (top :: rest)
              ("End" :: s :: "\x7b" :: "OFFSET" :: "0" :: "5" :: "0" :: "\x7d" :: ts)
            = hierLoop fuel (endSiteHeap heap top s [⟨0, 0⟩, ⟨5, 0⟩, ⟨0, 0⟩]) (top :: rest) ts
          ∧ ((endSiteHeap heap top s [⟨0, 0⟩, ⟨5, 0⟩, ⟨0, 0⟩]).getD heap.length default).channels = []
          ∧ ((endSiteHeap heap top s [⟨0, 0⟩, ⟨5, 0⟩, ⟨0, 0⟩]).getD heap.length default).children = []
          ∧ ((endSiteHeap heap top s [⟨0, 0⟩, ⟨5, 0⟩, ⟨0, 0⟩]).getD heap.length default).parent = some top
          ∧ ((endSiteHeap heap top s [⟨0, 0⟩, ⟨5, 0⟩, ⟨0, 0⟩]).getD top default).children
              = (heap.getD top default).children ++ [heap.length])
    ∧ ∀ (node : Node) (ts : List String) (t : Dec),
        node.channels = [] → readAnimNode node ts t = (true, node, ts) := by
  constructor
  · intro fuel heap top rest s ts htop
    have hne : top ≠ heap.length := Nat.ne_of_lt htop
    refine ⟨?_, ?_, ?_, ?_, ?_⟩
    · simp [hierLoop, next, readFloats, stof?, takeDigits, digit?, endSiteHeap]
    · unfold endSiteHeap pushChild
      rw [getD_set_ne _ _ _ _ _ (Ne.symm hne),
          getD_set_self _ _ _ _ (by simp [List.length_set, List.length_append])]
    · unfold endSiteHeap pushChild
      rw [getD_set_ne _ _ _ _ _ (Ne.symm hne),
          getD_set_self _ _ _ _ (by simp [List.length_set, List.length_append])]
    · unfold endSiteHeap pushChild
      rw [getD_set_ne _ _ _ _ _ (Ne.symm hne),
          getD_set_self _ _ _ _ (by simp [List.length_set, List.length_append])]
    · unfold endSiteHeap pushChild
      rw [getD_set_self _ _ _ _ (by simp [List.length_set, List.length_append]; omega),
          getD_set_ne _ _ _ _ _ hne, getD_set_ne _ _ _ _ _ hne,
          List.getD_append _ _ _ _ htop]
  · intro node ts t h
    rw [readAnimNode]
    simp [h]

/-- Witness for the C8 theorem: a concrete channel-less node consumes no
token, and the End-Site leaf attached under a concrete one-joint heap has
an empty channel list. -/
theorem c8_witness :
    readAnimNode {} ["7"] ⟨0, 0⟩ = (true, ({} : Node), ["7"])
    ∧ ((endSiteHeap [{ name := "Hips" }] 0 "Site" [⟨0, 0⟩, ⟨5, 0⟩, ⟨0, 0⟩]).getD 1 default).channels = [] :=
  ⟨c8_end_site_empty_and_consumes_nothing.2 {} ["7"] ⟨0, 0⟩ rfl,
   (c8_end_site_empty_and_consumes_nothing.1 0 [{ name := "Hips" }] 0 [] "Site" [] (by decide)).2.1⟩

/-- Unfolding of mayaCreate at positive fuel. -/
theorem mayaCreate_succ (host : CreateReq → Option Nat) (fuel : Nat) (heap : List Node) (ptr : Nat) :
    mayaCreate host (fuel + 1) heap ptr =
      ((mayaCreateList (mayaCreate host fuel)
          (heap.set ptr { heap.getD ptr default with jointObj := host (mkReq heap ptr) })
          (heap.getD ptr default).children).1,
       mkReq heap ptr ::
        (mayaCreateList (mayaCreate host fuel)
          (heap.set ptr { heap.getD ptr default with jointObj := host (mkReq heap ptr) })
          (heap.getD ptr default).children).2) :=
  rfl

/-- Unfolding of walkTrace at positive fuel. -/
theorem walkTrace_succ (fuel : Nat) (shape : List (List Nat)) (ptr : Nat) :
    walkTrace (fuel + 1) shape ptr = ptr :: walkTraceList (walkTrace fuel shape) (shape.getD ptr []) :=
  rfl

/-- Storing a jointObj handle does not change any children vector. -/
theorem mapChildren_set (heap : List Node) (p : Nat) (x : Option Nat) :
    (heap.set p { heap.getD p default with jointObj := x }).map Node.children
      = heap.map Node.children := by
  induction heap generalizing p with
  | nil => simp
  | cons a t ih =>
    cases p with
    | zero => simp [List.getD]
    | succ n => simpa [List.getD_cons_succ] using ih n

/-- Reading a children vector through the shape projection. -/
theorem mapChildren_getD (heap : List Node) (p : Nat) :
    (heap.map Node.children).getD p [] = (heap.getD p default).children := by
  induction heap generalizing p with
  | nil => cases p <;> rfl
  | cons a t ih =>
    cases p with
    | zero => rfl
    | succ n => simpa using ih n

/-- The walk of mayaCreate issues requests along a trace fixed by the tree
shape, independent of the host responses, and only rewrites jointObj
handles in the heap. -/
theorem mayaCreate_trace_aux (fuel : Nat) :
    (∀ (host : CreateReq → Option Nat) (heap : List Node) (ptr : Nat),
        ((mayaCreate host fuel heap ptr).2).map CreateReq.ptr
            = walkTrace fuel (heap.map Node.children) ptr
      ∧ ((mayaCreate host fuel heap ptr).1).map Node.children = heap.map Node.children)
    ∧ (∀ (host : CreateReq → Option Nat) (heap : List Node) (cs : List Nat),
        ((mayaCreateList (mayaCreate host fuel) heap cs).2).map CreateReq.ptr
            = walkTraceList (walkTrace fuel (heap.map Node.children)) cs
      ∧ ((mayaCreateList (mayaCreate host fuel) heap cs).1).map Node.children
            = heap.map Node.children) := by
  induction fuel with
  | zero =>
    constructor
    · intro host heap ptr
      exact ⟨rfl, rfl⟩
    · intro host heap cs
      induction cs generalizing heap with
      | nil => exact ⟨rfl, rfl⟩
      | cons c cs ih =>
        have h := ih heap
        simpa [mayaCreateList, mayaCreate, walkTraceList, walkTrace] using h
  | succ fuel ih =>
    have hP : ∀ (host : CreateReq → Option Nat) (heap : List Node) (ptr : Nat),
        ((mayaCreate host (fuel + 1) heap ptr).2).map CreateReq.ptr
            = walkTrace (fuel + 1) (heap.map Node.children) ptr
      ∧ ((mayaCreate host (fuel + 1) heap ptr).1).map Node.children = heap.map Node.children := by
      intro host heap ptr
      obtain ⟨h1, h2⟩ := ih.2 host
        (heap.set ptr { heap.getD ptr default with jointObj := host (mkReq heap ptr) })
        (heap.getD ptr default).children
      rw [mapChildren_set] at h1 h2
      rw [mayaCreate_succ, walkTrace_succ]
      constructor
      · simp only [List.map_cons]
        rw [mapChildren_getD, h1]
        rfl
      · exact h2
    constructor
    · exact hP
    · intro host heap cs
      induction cs generalizing heap with
      | nil => exact ⟨rfl, rfl⟩
      | cons c cs ihc =>
        rcases hP host heap c with ⟨h1, h2⟩
        rcases ihc ((mayaCreate host (fuel + 1) heap c).1) with ⟨h3, h4⟩
        constructor
        · simp [mayaCreateList, walkTraceList, h1, h3, h2]
        · simp [mayaCreateList, h4, h2]

/-- C9 counterexample: with a host that rejects every creation request, the
reader on a two-joint tree (Frames: 0 so the motion loop exits) still
returns success and the walk still issues both requests: the rejection of
the root request (its jointObj stays the null handle none) does not abort
the walk — the child request is issued anyway, carrying the null parent
handle. -/
theorem c9_counterexample_rejection_not_fatal :
    reader 10 (tokenize "HIERARCHY ROOT a \x7b OFFSET 0 0 0 CHANNELS 0 JOINT b \x7b OFFSET 1 0 0 CHANNELS 0 \x7d \x7d MOTION Frames: 0 Frame Time: 0.1") hostRejecting
      = .success
          [{ name := "a", offset := [⟨0, 0⟩, ⟨0, 0⟩, ⟨0, 0⟩], children := [1] },
           { name := "b", offset := [⟨1, 0⟩, ⟨0, 0⟩, ⟨0, 0⟩], parent := some 0 }]
          [0] []
          [{ ptr := 0, name := "a", offset := [⟨0, 0⟩, ⟨0, 0⟩, ⟨0, 0⟩], parentArg := none },
           { ptr := 1, name := "b", offset := [⟨1, 0⟩, ⟨0, 0⟩, ⟨0, 0⟩], parentArg := some none }]
          [] [] := by
  decide

/-- C9 amended: mayaCreate never inspects the host response, so a rejected
creation request does not abort the remaining walk: for every host — in
particular one rejecting any subset of the requests — the sequence of
joints for which requests are issued equals the host-independent trace
determined by the tree shape alone. -/
theorem c9_amended_walk_ignores_host_rejections (host : CreateReq → Option Nat)
    (fuel : Nat) (heap : List Node) (ptr : Nat) :
    ((mayaCreate host fuel heap ptr).2).map CreateReq.ptr
      = walkTrace fuel (heap.map Node.children) ptr :=
  ((mayaCreate_trace_aux fuel).1 host heap ptr).1
